import Mathlib

/-!
Verification development for the db3 node sources
`src/node/src/rollup_executor.rs` and `src/node/src/indexer_impl.rs`.

The Rust code is shallowly embedded: each method becomes a pure Lean
function over an explicit state, external collaborators (the mutation
store adapters, the Arweave toolbox, the meta-store client, the primary
node client, the crypto utilities) become oracle fields of an
environment record, and fallible calls return `Except`.  Side effects
on external systems are recorded in an explicit trace.
-/

deriving instance DecidableEq for Except

namespace DB3

/-- `db3_rollup_proto::RollupRecord` as used by `rollup_executor.rs`. -/
structure RollupRecord where
  end_block : Nat
  raw_data_size : Nat
  compress_data_size : Nat
  processed_time : Nat
  arweave_tx : String
  time : Nat
  mutation_count : Nat
  cost : Nat
  start_block : Nat
  evm_tx : String
  evm_cost : Nat
deriving DecidableEq, Repr

/-- `db3_rollup_proto::GcRecord` as used by `rollup_executor.rs`. -/
structure GcRecord where
  start_block : Nat
  end_block : Nat
  data_size : Nat
  time : Nat
  processed_time : Nat
deriving DecidableEq, Repr

/-- Modelled from the spec: the mutation store's rollup-record log and
gc-record log (`rollup_store`, `gc_store`).  `MutationStore` itself is
not under `src/`; the spec describes the logs as append-only with
accessors `get_last_rollup_record`, `get_rollup_record(start)`,
`get_next_rollup_record(start)`, `get_last_gc_record`,
`add_rollup_record`, `add_gc_record`.  Records are kept in append
order, newest last. -/
structure StoreState where
  rollup_records : List RollupRecord
  gc_records : List GcRecord
deriving DecidableEq, Repr

/-- Modelled from the spec: returns the most recently appended rollup
record, if any. -/
def StoreState.get_last_rollup_record (s : StoreState) : Option RollupRecord :=
  s.rollup_records.getLast?

/-- Modelled from the spec: returns the most recently appended GC
record, if any. -/
def StoreState.get_last_gc_record (s : StoreState) : Option GcRecord :=
  s.gc_records.getLast?

/-- Modelled from the spec: the rollup record whose `start_block`
equals the given block. -/
def StoreState.get_rollup_record (s : StoreState) (start : Nat) : Option RollupRecord :=
  s.rollup_records.find? (fun r => r.start_block = start)

/-- Modelled from the spec: the rollup record immediately after the
given start block, i.e. the first record in append order whose
`start_block` is strictly greater. -/
def StoreState.get_next_rollup_record (s : StoreState) (start : Nat) : Option RollupRecord :=
  s.rollup_records.find? (fun r => start < r.start_block)

/-- Modelled from the spec: appending to the rollup-record log. -/
def StoreState.add_rollup_record (s : StoreState) (r : RollupRecord) : StoreState :=
  { s with rollup_records := s.rollup_records ++ [r] }

/-- Modelled from the spec: appending to the gc-record log. -/
def StoreState.add_gc_record (s : StoreState) (g : GcRecord) : StoreState :=
  { s with gc_records := s.gc_records ++ [g] }

/-- The `start_block` of the last rollup record, `0` when none exists:
the `match self.storage.get_last_rollup_record()` fallback of
`process`. -/
def lastRollupStart (rs : List RollupRecord) : Nat :=
  match rs.getLast? with
  | some r => r.start_block
  | none => 0

/-- The `end_block` of the last rollup record, `0` when none exists. -/
def lastRollupEnd (rs : List RollupRecord) : Nat :=
  match rs.getLast? with
  | some r => r.end_block
  | none => 0

/-- The `arweave_tx` of the last rollup record, `""` when none
exists. -/
def lastRollupTx (rs : List RollupRecord) : String :=
  match rs.getLast? with
  | some r => r.arweave_tx
  | none => ""

/-- The `start_block` of the last GC record, `0` when none exists: the
`match self.storage.get_last_gc_record()` fallback of
`gc_mutation`. -/
def lastGcStart (s : StoreState) : Nat :=
  match s.get_last_gc_record with
  | some r => r.start_block
  | none => 0

/-- The mutable fields of `RollupExecutor` that `process` touches: the
storage handle and the four pending counters (atomics in the
source). -/
structure ExecState where
  store : StoreState
  pending_mutations : Nat
  pending_data_size : Nat
  pending_start_block : Nat
  pending_end_block : Nat
deriving DecidableEq, Repr

/-- The configuration cells of `RollupExecutor`.  `has_config` models
`(Some meta_store, Some ar_toolbox)`, i.e. that the system has been
set up. -/
structure RollupConfig where
  has_config : Bool
  min_rollup_size : Nat
  min_gc_round_offset : Nat
  network_id : Nat
deriving DecidableEq, Repr

/-- A mutation entry as seen by the rollup path; its content is opaque
to `process`, only the list length and the serialized batch size
matter. -/
abbrev MutEntry := Nat

/-- Oracles for the external collaborators of `RollupExecutor`:
the mutation store scan operations, the Arweave toolbox and the
meta-store client.  Fallible calls are `Option`-valued (`none` is the
error case). -/
structure RollupEnv where
  flush_ok : Bool
  current_block : Nat
  range_mutations : Nat → Nat → List MutEntry
  batch_size : List MutEntry → Nat
  upload : String → Nat → Nat → Nat → Option (String × Nat × Nat × Nat)
  update_rollup_step : String → Nat → Option (Nat × String)
  add_rollup_ok : Bool
  has_enough_round_left : Nat → Nat → Bool
  gc_range_ok : Bool
  add_gc_ok : Bool
  time : Nat
  elapsed : Nat

/-- External side effects performed by `process` and `gc_mutation`,
recorded in order. -/
inductive Effect where
  | flush : Effect
  | upload (tx : String) (startBlock endBlock : Nat) : Effect
  | updateRollupStep (id : String) : Effect
  | addRollupRecord (r : RollupRecord) : Effect
  | gcRangeMutation (startBlock endBlock : Nat) : Effect
  | addGcRecord (g : GcRecord) : Effect
deriving DecidableEq, Repr

/-- Result of `gc_mutation`: the new store, the effects performed, and
the `Result<()>` value. -/
structure GcResult where
  store : StoreState
  trace : List Effect
  res : Except String Unit
deriving DecidableEq, Repr

/-- `RollupExecutor::gc_mutation` (rollup_executor.rs lines 155-224).
Reads the last GC record (fallback `(0, 0, first := true)`), asks the
mutation log whether at least `min_gc_round_offset` rollup rounds lie
strictly after it, and when so garbage-collects the single rollup
record located by `get_rollup_record` (first run) or
`get_next_rollup_record` (subsequent runs), appending a GC record that
copies that rollup record's range and raw data size. -/
def gc_mutation (cfg : RollupConfig) (env : RollupEnv) (store : StoreState) : GcResult :=
  let (last_start_block, _last_end_block, first) :=
    match store.get_last_gc_record with
    | some r => (r.start_block, r.end_block, false)
    | none => (0, 0, true)
  if env.has_enough_round_left last_start_block cfg.min_gc_round_offset then
    if first then
      match store.get_rollup_record last_start_block with
      | some r =>
        if env.gc_range_ok then
          let record : GcRecord :=
            { start_block := r.start_block
              end_block := r.end_block
              data_size := r.raw_data_size
              time := env.time
              processed_time := env.elapsed }
          if env.add_gc_ok then
            ⟨store.add_gc_record record,
             [Effect.gcRangeMutation r.start_block r.end_block, Effect.addGcRecord record],
             Except.ok ()⟩
          else
            ⟨store, [Effect.gcRangeMutation r.start_block r.end_block],
             Except.error "add_gc_record"⟩
        else ⟨store, [], Except.error "gc_range_mutation"⟩
      | none =>
        -- going here is not normal case (warn and return Ok)
        ⟨store, [], Except.ok ()⟩
    else
      match store.get_next_rollup_record last_start_block with
      | some r =>
        if env.gc_range_ok then
          let record : GcRecord :=
            { start_block := r.start_block
              end_block := r.end_block
              data_size := r.raw_data_size
              time := env.time
              processed_time := env.elapsed }
          if env.add_gc_ok then
            ⟨store.add_gc_record record,
             [Effect.gcRangeMutation r.start_block r.end_block, Effect.addGcRecord record],
             Except.ok ()⟩
          else
            ⟨store, [Effect.gcRangeMutation r.start_block r.end_block],
             Except.error "add_gc_record"⟩
        else ⟨store, [], Except.error "gc_range_mutation"⟩
      | none =>
        -- going here is not normal case (warn and return Ok)
        ⟨store, [], Except.ok ()⟩
  else
    -- not enough round to run gc
    ⟨store, [], Except.ok ()⟩

/-- Result of `process`: the executor state after the call, the
effects performed, and the `Result<()>` value. -/
structure ProcResult where
  state : ExecState
  trace : List Effect
  res : Except String Unit
deriving DecidableEq, Repr

/-- `RollupExecutor::process` (rollup_executor.rs lines 242-333).
Guarded by the configuration gate; flushes state; reads the last
rollup record (fallback `(0, 0, "")`); returns early when
`current_block <= last_end_block`; stores the pending counters; fetches
the mutation window; converts it to a record batch and measures its
in-memory size; applies the threshold gate; on rollup resets the
pending counters, uploads, commits on chain, appends the rollup record
and runs `gc_mutation`. -/
def process (cfg : RollupConfig) (env : RollupEnv) (s : ExecState) : ProcResult :=
  if cfg.has_config then
    let network_id := cfg.network_id
    if env.flush_ok then
      let last_start_block := lastRollupStart s.store.rollup_records
      let last_end_block := lastRollupEnd s.store.rollup_records
      let tx := lastRollupTx s.store.rollup_records
      let current_block := env.current_block
      if current_block ≤ last_end_block then
        -- no block to rollup
        ⟨s, [Effect.flush], Except.ok ()⟩
      else
        let s1 : ExecState :=
          { s with pending_start_block := last_start_block, pending_end_block := current_block }
        let mutations := env.range_mutations last_end_block current_block
        if mutations.length = 0 then
          -- no block to rollup
          ⟨s1, [Effect.flush], Except.ok ()⟩
        else
          let s2 : ExecState := { s1 with pending_mutations := mutations.length }
          let memory_size := env.batch_size mutations
          let s3 : ExecState := { s2 with pending_data_size := memory_size }
          if memory_size < cfg.min_rollup_size then
            -- there not enough data to trigger rollup
            ⟨s3, [Effect.flush], Except.ok ()⟩
          else
            let s4 : ExecState :=
              { s3 with pending_start_block := current_block
                        pending_end_block := current_block
                        pending_data_size := 0
                        pending_mutations := 0 }
            match env.upload tx last_end_block current_block network_id with
            | none =>
              ⟨s4, [Effect.flush, Effect.upload tx last_end_block current_block],
               Except.error "compress_and_upload_record_batch"⟩
            | some (id, reward, num_rows, size) =>
              match env.update_rollup_step id network_id with
              | none =>
                ⟨s4,
                 [Effect.flush, Effect.upload tx last_end_block current_block,
                  Effect.updateRollupStep id],
                 Except.error "update_rollup_step"⟩
              | some (evm_cost, tx_hash) =>
                let record : RollupRecord :=
                  { end_block := current_block
                    raw_data_size := memory_size
                    compress_data_size := size
                    processed_time := env.elapsed
                    arweave_tx := id
                    time := env.time
                    mutation_count := num_rows
                    cost := reward
                    start_block := last_end_block
                    evm_tx := "0x" ++ tx_hash
                    evm_cost := evm_cost }
                if env.add_rollup_ok then
                  let s5 : ExecState := { s4 with store := s4.store.add_rollup_record record }
                  let g := gc_mutation cfg env s5.store
                  ⟨{ s5 with store := g.store },
                   [Effect.flush, Effect.upload tx last_end_block current_block,
                    Effect.updateRollupStep id, Effect.addRollupRecord record] ++ g.trace,
                   g.res⟩
                else
                  ⟨s4,
                   [Effect.flush, Effect.upload tx last_end_block current_block,
                    Effect.updateRollupStep id],
                   Except.error "add_rollup_record"⟩
    else ⟨s, [], Except.error "flush_state"⟩
  else
    -- the system has not been setup
    ⟨s, [], Except.ok ()⟩

/-- Iterated `process` calls, one per environment snapshot, threading
the executor state. -/
def runProcesses (cfg : RollupConfig) (envs : List RollupEnv) (s : ExecState) : ExecState :=
  envs.foldl (fun st env => (process cfg env st).state) s

/-! ## Indexer (`indexer_impl.rs`) -/

/-- The `db3_error::DB3Error` variants reachable from the embedded
indexer paths. -/
inductive DB3Err where
  | writeStoreError (msg : String)
  | rollupError (msg : String)
deriving DecidableEq, Repr

/-- `db3_storage_proto::block_response::MutationWrapper` header:
`(block_id, order_id, doc_ids_map, network)`. -/
structure MutationHeader where
  block_id : Nat
  order_id : Nat
  doc_ids_map : String
  network : Nat
deriving DecidableEq, Repr

/-- `MutationWrapper` body: `(payload, signature)`. -/
structure MutationBody where
  payload : List Nat
  signature : String
deriving DecidableEq, Repr

/-- A mutation wrapper as returned by the primary node: both fields
are optional protobuf messages. -/
structure MutationWrapper where
  header : Option MutationHeader
  body : Option MutationBody
deriving DecidableEq, Repr

/-- The decoded mutation envelope returned by
`MutationUtil::unwrap_and_light_verify`; only the raw `action` code is
inspected by `parse_and_apply_mutations`. -/
structure DecodedMutation where
  action : Int
deriving DecidableEq, Repr

/-- Oracles for the collaborators of
`IndexerNodeImpl::parse_and_apply_mutations`: the mutation verifier,
the protobuf enum decoder, the doc-id map decoder and the document
store. -/
structure ApplyEnv where
  unwrap_and_light_verify : List Nat → String → Except String (DecodedMutation × Nat × Nat)
  action_from_i32 : Int → Option Nat
  convert_doc_ids_map : String → Except DB3Err (List (List Nat))
  apply_mutation : Nat → DecodedMutation → Nat → Nat → Nat → Nat → Nat → List (List Nat) →
    Except DB3Err Unit

/-- How a call to `parse_and_apply_mutations` ends: normally, with a
returned error, or with a Rust panic (from `.unwrap()` on a missing
field). -/
inductive ApplyOutcome where
  | ok : ApplyOutcome
  | error (e : DB3Err) : ApplyOutcome
  | panicked (site : String) : ApplyOutcome
deriving DecidableEq, Repr

/-- Result of `parse_and_apply_mutations` together with an
instrumentation bit: `invalid_header_hit` records whether the
`"invalid mutation header"` error branch of the inner
`match &mutation.header` was ever executed. -/
structure ApplyResult where
  outcome : ApplyOutcome
  invalid_header_hit : Bool
deriving DecidableEq, Repr

/-- `IndexerNodeImpl::parse_and_apply_mutations` (indexer_impl.rs
lines 324-354).  For each wrapper: `mutation.header.as_ref().unwrap()`
and `mutation.body.as_ref().unwrap()` (panics on `None`), signature
verification, action decoding, then a second `match &mutation.header`
whose `None` arm returns the `"invalid mutation header"`
`WriteStoreError`, doc-id decoding and application. -/
def parse_and_apply_mutations (env : ApplyEnv) :
    List MutationWrapper → ApplyResult
  | [] => ⟨ApplyOutcome.ok, false⟩
  | mutation :: rest =>
    match mutation.header with
    | none => ⟨ApplyOutcome.panicked "mutation.header.as_ref().unwrap()", false⟩
    | some header =>
      match mutation.body with
      | none => ⟨ApplyOutcome.panicked "mutation.body.as_ref().unwrap()", false⟩
      | some body =>
        match env.unwrap_and_light_verify body.payload body.signature with
        | Except.error e =>
          ⟨ApplyOutcome.error (DB3Err.writeStoreError e), false⟩
        | Except.ok (dm, address, nonce) =>
          match env.action_from_i32 dm.action with
          | none =>
            ⟨ApplyOutcome.error (DB3Err.writeStoreError "fail to convert action type"), false⟩
          | some action =>
            match mutation.header with
            | some header2 =>
              let block := header2.block_id
              let order := header2.order_id
              let doc_ids_map_str := header2.doc_ids_map
              match env.convert_doc_ids_map doc_ids_map_str with
              | Except.error e => ⟨ApplyOutcome.error e, false⟩
              | Except.ok doc_ids_map =>
                match env.apply_mutation action dm address header.network nonce block order
                    doc_ids_map with
                | Except.error e => ⟨ApplyOutcome.error e, false⟩
                | Except.ok _ => parse_and_apply_mutations env rest
            | none =>
              ⟨ApplyOutcome.error (DB3Err.writeStoreError "invalid mutation header"), true⟩

/-- How the `recover_from_fetched_blocks` loop ends. -/
inductive LoopExit where
  | finished : LoopExit
  | errored (e : DB3Err) : LoopExit
  | panicked (site : String) : LoopExit
  | fuelExhausted : LoopExit
deriving DecidableEq, Repr

/-- Result of `recover_from_fetched_blocks`: the block ranges handed
to `get_blocks`, in order, and how the loop ended. -/
structure FetchResult where
  requests : List (Nat × Nat)
  exit : LoopExit
deriving DecidableEq, Repr

/-- Oracles for `recover_from_fetched_blocks`: the persisted block
state and the primary node client. -/
structure FetchEnv where
  recover_block_state : Option (Nat × Nat)
  get_blocks : Nat → Nat → Except String (List MutationWrapper)
  applyEnv : ApplyEnv

/-- The loop body of `IndexerNodeImpl::recover_from_fetched_blocks`
(indexer_impl.rs lines 198-220): request `[cursor, cursor + 1000)`,
stop on an empty mutation list, apply the batch, advance the cursor by
`100`.  `fuel` bounds the number of iterations of the (potentially
unbounded) source loop. -/
def recover_loop (env : FetchEnv) : Nat → Nat → FetchResult
  | 0, _ => ⟨[], LoopExit.fuelExhausted⟩
  | fuel + 1, start_block =>
    match env.get_blocks start_block (start_block + 1000) with
    | Except.error e =>
      ⟨[(start_block, start_block + 1000)], LoopExit.errored (DB3Err.writeStoreError e)⟩
    | Except.ok mutations =>
      if mutations.isEmpty then
        -- Stop fetching blocks, no more blocks to fetch
        ⟨[(start_block, start_block + 1000)], LoopExit.finished⟩
      else
        match (parse_and_apply_mutations env.applyEnv mutations).outcome with
        | ApplyOutcome.error e => ⟨[(start_block, start_block + 1000)], LoopExit.errored e⟩
        | ApplyOutcome.panicked site =>
          ⟨[(start_block, start_block + 1000)], LoopExit.panicked site⟩
        | ApplyOutcome.ok =>
          let r := recover_loop env fuel (start_block + 100)
          ⟨(start_block, start_block + 1000) :: r.requests, r.exit⟩

/-- `IndexerNodeImpl::recover_from_fetched_blocks` (indexer_impl.rs
lines 191-223): read the watermark (fallback `(0, 0)`), then run the
fetch loop from it. -/
def recover_from_fetched_blocks (env : FetchEnv) (fuel : Nat) : FetchResult :=
  let (start_block, _order) :=
    match env.recover_block_state with
    | some bs => bs
    | none => (0, 0)
  recover_loop env fuel start_block

/-- The event-processor registry: `contract_address → processor`
(processor handles are opaque, identified by a number).  Kept in
insertion order. -/
abbrev ProcessorMapping := List (String × Nat)

/-- Result of `start_an_event_task`: the registry after the call and
the `Result<()>` value. -/
structure TaskResult where
  mapping : ProcessorMapping
  res : Except DB3Err Unit
deriving DecidableEq, Repr

/-- `IndexerNodeImpl::start_an_event_task` (indexer_impl.rs lines
275-322).  `EventProcessor::new` runs first (oracle `new_processor`;
`none` is its failure); then, under the registry lock, an existing
`contract_address` key fails the call with the
`"contract_addr .. exist"` `WriteStoreError` and leaves the mapping
untouched; otherwise the processor is inserted and its task
spawned. -/
def start_an_event_task (new_processor : Option Nat) (mapping : ProcessorMapping)
    (contract_address : String) : TaskResult :=
  match new_processor with
  | none => ⟨mapping, Except.error (DB3Err.writeStoreError "fail to create event processor")⟩
  | some processor =>
    if mapping.any (fun kv => kv.fst = contract_address) then
      -- contract addr {} exist
      ⟨mapping,
       Except.error (DB3Err.writeStoreError ("contract_addr " ++ contract_address ++ " exist"))⟩
    else
      ⟨mapping ++ [(contract_address, processor)], Except.ok ()⟩

/-- `db3_database_v2_proto` event-database descriptor fields used by
`recover_state`. -/
structure EventDb where
  address : List Nat
  evm_node_url : String
  events_json_abi : String
  contract_address : String
deriving DecidableEq, Repr

/-- Oracles for `recover_state`: the document store recovery, the
descriptor enumeration, address decoding, collection listing, and
`EventProcessor::new` (per database). -/
structure RecoverEnv where
  recover_db_state_ok : Bool
  get_all_event_db : Except String (List EventDb)
  try_from : List Nat → Except String Nat
  get_collection_of_database : Nat → Except String (List String)
  new_processor : EventDb → Option Nat

/-- The `for database in databases` loop of
`IndexerNodeImpl::recover_state` (indexer_impl.rs lines 108-128).
Address decoding and collection listing propagate errors with `?`; the
`start_an_event_task` result is only logged (`if let Err(_e)`), so a
failed registration is swallowed and the loop continues.  Returns the
final registry and, per database, `(contract_address, registered?)`. -/
def recover_state_loop (env : RecoverEnv) (mapping : ProcessorMapping) :
    List EventDb → Except String (ProcessorMapping × List (String × Bool))
  | [] => Except.ok (mapping, [])
  | database :: rest =>
    match env.try_from database.address with
    | Except.error e => Except.error e
    | Except.ok db_address =>
      match env.get_collection_of_database db_address with
      | Except.error e => Except.error e
      | Except.ok collections =>
        let _tables := collections.map (fun c => c)
        let tr := start_an_event_task (env.new_processor database) mapping
          database.contract_address
        let attempt : String × Bool :=
          match tr.res with
          | Except.error _ => (database.contract_address, false)
          | Except.ok _ => (database.contract_address, true)
        match recover_state_loop env tr.mapping rest with
        | Except.error e => Except.error e
        | Except.ok (m, t) => Except.ok (m, attempt :: t)

/-- `IndexerNodeImpl::recover_state` (indexer_impl.rs lines 105-130):
recover the document-store state, enumerate the event databases and
run the registration loop. -/
def recover_state (env : RecoverEnv) (mapping : ProcessorMapping) :
    Except String (ProcessorMapping × List (String × Bool)) :=
  if env.recover_db_state_ok then
    match env.get_all_event_db with
    | Except.error e => Except.error e
    | Except.ok databases => recover_state_loop env mapping databases
  else Except.error "recover_db_state"

/-- The `IndexerNodeImpl` fields read or written by the `setup` and
`get_system_status` handlers. -/
structure IndexerState where
  network_id : Nat
  admin_addr : String
  node_url : String
  key_root_path : String
deriving DecidableEq, Repr

/-- `tonic::Status` error kinds produced by the embedded handlers. -/
inductive RpcStatus where
  | invalidArgument (msg : String)
  | internalErr (msg : String)
  | permissionDenied (msg : String)
deriving DecidableEq, Repr

/-- `db3_indexer_proto::SetupResponse`. -/
structure SetupResponse where
  code : Nat
  msg : String
deriving DecidableEq, Repr

/-- Modelled from the spec: `MutationUtil::get_u64_field(data, name,
dv)` (not under `src/`) extracts the named numeric field from the
verified typed-data payload and falls back to the default when it is
absent.  The payload fields are modelled as a name-value list. -/
def get_u64_field (data : List (String × Nat)) (name : String) (dv : Nat) : Nat :=
  match data.find? (fun kv => kv.fst = name) with
  | some kv => kv.snd
  | none => dv

/-- Oracles for the `setup` handler: `MutationUtil::verify_setup`
(returns the recovered signer address and the typed-data fields) and
address parsing. -/
structure SetupEnv where
  verify_setup : List Nat → String → Except String (Nat × List (String × Nat))
  parse_address : String → Except String Nat

/-- Result of the `setup` handler: the RPC response and the indexer
state after the call. -/
structure SetupCallResult where
  response : Except RpcStatus SetupResponse
  state : IndexerState
deriving DecidableEq, Repr

/-- `IndexerNodeImpl::setup` (indexer_impl.rs lines 378-402): verify
the payload (failure ⇒ `invalid_argument`), parse the configured admin
address (failure ⇒ `internal`), reject a non-admin signer with
`permission_denied`, and otherwise store the payload's `network` field
into `network_id` and answer `{code: 0, msg: "ok"}`. -/
def setup (env : SetupEnv) (st : IndexerState) (payload : List Nat) (signature : String) :
    SetupCallResult :=
  match env.verify_setup payload signature with
  | Except.error e =>
    ⟨Except.error (RpcStatus.invalidArgument ("fail to parse the payload and signature " ++ e)),
     st⟩
  | Except.ok (addr, data) =>
    match env.parse_address st.admin_addr with
    | Except.error e => ⟨Except.error (RpcStatus.internalErr e), st⟩
    | Except.ok admin_addr =>
      if admin_addr ≠ addr then
        ⟨Except.error (RpcStatus.permissionDenied "You are not the admin"), st⟩
      else
        let network := get_u64_field data "network" 0
        ⟨Except.ok ⟨0, "ok"⟩, { st with network_id := network }⟩

/-- `db3_base_proto::SystemConfig` (only the field relevant to the
network claims). -/
structure SystemConfig where
  network_id : Nat
deriving DecidableEq, Repr

/-- `db3_base_proto::SystemStatus`, the `GetSystemStatus` response. -/
structure SystemStatus where
  evm_account : String
  evm_balance : String
  ar_account : String
  ar_balance : String
  node_url : String
  config : Option SystemConfig
  has_inited : Bool
  admin_addr : String
  version : Option String
deriving DecidableEq, Repr

/-- Oracles for `get_system_status`: the wallet loader and the build
version string. -/
structure StatusEnv where
  build_wallet : String → Except String String
  build_version : String

/-- `IndexerNodeImpl::get_system_status` (indexer_impl.rs lines
404-422): load or create the wallet from the key store and answer
with its address plus static metadata; `config` is the literal `None`
and `has_inited` the literal `false`. -/
def get_system_status (env : StatusEnv) (st : IndexerState) : Except RpcStatus SystemStatus :=
  match env.build_wallet st.key_root_path with
  | Except.error e => Except.error (RpcStatus.internalErr e)
  | Except.ok wallet_addr =>
    Except.ok
      { evm_account := "0x" ++ wallet_addr
        evm_balance := "0"
        ar_account := ""
        ar_balance := ""
        node_url := st.node_url
        config := none
        has_inited := false
        admin_addr := st.admin_addr
        version := some env.build_version }

/-! ## Rollup-range contiguity (C1) -/

/-- `chainFromB b rs` says the records `rs` form a contiguous chain of
half-open ranges starting at block `b`: each record starts where the
previous one ended and is non-empty.  This entails non-overlap and gap
freedom of the ranges and that together they cover `[b, last_end)`. -/
def chainFromB : Nat → List RollupRecord → Bool
  | _, [] => true
  | b, r :: rs => (r.start_block == b) && decide (b < r.end_block) && chainFromB r.end_block rs

/-- The end boundary of a chain that starts at `b`: `b` itself for the
empty chain, else the last record's `end_block`. -/
def endBoundary (b : Nat) : List RollupRecord → Nat
  | [] => b
  | r :: rs => endBoundary r.end_block rs

theorem endBoundary_cons (b : Nat) (r : RollupRecord) (rs : List RollupRecord) :
    endBoundary b (r :: rs) = lastRollupEnd (r :: rs) := by
  induction rs generalizing b r with
  | nil => simp [endBoundary, lastRollupEnd]
  | cons q rs ih =>
    show endBoundary r.end_block (q :: rs) = lastRollupEnd (r :: q :: rs)
    rw [ih]
    simp [lastRollupEnd, List.getLast?_cons_cons]

theorem endBoundary_zero (rs : List RollupRecord) :
    endBoundary 0 rs = lastRollupEnd rs := by
  cases rs with
  | nil => simp [endBoundary, lastRollupEnd]
  | cons r rs => exact endBoundary_cons 0 r rs

theorem chainFromB_append (rec : RollupRecord) :
    ∀ (rs : List RollupRecord) (b : Nat), chainFromB b rs = true →
      rec.start_block = endBoundary b rs → rec.start_block < rec.end_block →
      chainFromB b (rs ++ [rec]) = true := by
  intro rs
  induction rs with
  | nil =>
    intro b _ hstart hlt
    simp [chainFromB, endBoundary] at hstart ⊢
    omega
  | cons r rs ih =>
    intro b hchain hstart hlt
    simp only [chainFromB, Bool.and_eq_true, beq_iff_eq, decide_eq_true_eq] at hchain
    simp only [List.cons_append, chainFromB, Bool.and_eq_true, beq_iff_eq, decide_eq_true_eq]
    exact ⟨⟨hchain.1.1, hchain.1.2⟩, ih r.end_block hchain.2 hstart hlt⟩

theorem gc_mutation_rollup_records_unchanged (cfg : RollupConfig) (env : RollupEnv)
    (store : StoreState) :
    (gc_mutation cfg env store).store.rollup_records = store.rollup_records := by
  unfold gc_mutation
  repeat' (first | rfl | split)

/-- Case analysis on `process`: either the rollup-record log is
untouched, or exactly one record is appended, whose range runs from
the previous last `end_block` (`0` when none) to the mutation log's
current block, the latter strictly greater. -/
theorem process_rollup_records_cases (cfg : RollupConfig) (env : RollupEnv) (s : ExecState) :
    (process cfg env s).state.store.rollup_records = s.store.rollup_records ∨
    ∃ rec : RollupRecord,
      (process cfg env s).state.store.rollup_records = s.store.rollup_records ++ [rec] ∧
      rec.start_block = lastRollupEnd s.store.rollup_records ∧
      rec.end_block = env.current_block ∧
      lastRollupEnd s.store.rollup_records < env.current_block := by
  by_cases hcfg : cfg.has_config
  case neg => left; simp [process, hcfg]
  by_cases hflush : env.flush_ok
  case neg => left; simp [process, hcfg, hflush]
  by_cases hle : env.current_block ≤ lastRollupEnd s.store.rollup_records
  case pos => left; simp [process, hcfg, hflush, hle]
  by_cases hmut :
      (env.range_mutations (lastRollupEnd s.store.rollup_records) env.current_block).length = 0
  case pos => left; simp [process, hcfg, hflush, hle, hmut]
  by_cases hsize :
      env.batch_size (env.range_mutations (lastRollupEnd s.store.rollup_records)
        env.current_block) < cfg.min_rollup_size
  case pos => left; simp [process, hcfg, hflush, hle, hmut, hsize]
  cases hup : env.upload (lastRollupTx s.store.rollup_records)
      (lastRollupEnd s.store.rollup_records) env.current_block cfg.network_id with
  | none => left; simp [process, hcfg, hflush, hle, hmut, hsize, hup]
  | some v1 =>
    obtain ⟨id, reward, num_rows, size⟩ := v1
    cases hupd : env.update_rollup_step id cfg.network_id with
    | none => left; simp [process, hcfg, hflush, hle, hmut, hsize, hup, hupd]
    | some v2 =>
      obtain ⟨evm_cost, tx_hash⟩ := v2
      by_cases hadd : env.add_rollup_ok
      case neg => left; simp [process, hcfg, hflush, hle, hmut, hsize, hup, hupd, hadd]
      right
      refine ⟨{ end_block := env.current_block
                raw_data_size := env.batch_size (env.range_mutations
                  (lastRollupEnd s.store.rollup_records) env.current_block)
                compress_data_size := size
                processed_time := env.elapsed
                arweave_tx := id
                time := env.time
                mutation_count := num_rows
                cost := reward
                start_block := lastRollupEnd s.store.rollup_records
                evm_tx := "0x" ++ tx_hash
                evm_cost := evm_cost }, ?_, rfl, rfl, by omega⟩
      simp [process, hcfg, hflush, hle, hmut, hsize, hup, hupd, hadd,
        gc_mutation_rollup_records_unchanged, StoreState.add_rollup_record]

theorem process_preserves_chain (cfg : RollupConfig) (env : RollupEnv) (s : ExecState)
    (h : chainFromB 0 s.store.rollup_records = true) :
    chainFromB 0 (process cfg env s).state.store.rollup_records = true := by
  rcases process_rollup_records_cases cfg env s with hc | ⟨rec, h1, h2, h3, h4⟩
  · rw [hc]; exact h
  · rw [h1]
    exact chainFromB_append rec _ 0 h (by rw [endBoundary_zero]; exact h2) (by omega)

theorem runProcesses_preserves_chain (cfg : RollupConfig) :
    ∀ (envs : List RollupEnv) (s : ExecState),
      chainFromB 0 s.store.rollup_records = true →
      chainFromB 0 (runProcesses cfg envs s).store.rollup_records = true := by
  intro envs
  induction envs with
  | nil => intro s h; exact h
  | cons e es ih =>
    intro s h
    exact ih _ (process_preserves_chain cfg e s h)

/-- C1: every rollup record appended by `RollupExecutor::process` has
`start_block` equal to the previous last rollup record's `end_block`
(`0` when no rollup record exists) and `end_block` equal to the
mutation log's current block, strictly greater than that
`start_block`; hence any sequence of `process` calls keeps the records
a contiguous, non-overlapping cover of `[0, last_end)` starting at
block `0`. -/
theorem process_rollup_ranges_contiguous (cfg : RollupConfig) (env : RollupEnv)
    (s : ExecState) (rec : RollupRecord) (envs : List RollupEnv)
    (happ : (process cfg env s).state.store.rollup_records = s.store.rollup_records ++ [rec])
    (hchain : chainFromB 0 s.store.rollup_records = true) :
    (rec.start_block = lastRollupEnd s.store.rollup_records ∧
     rec.end_block = env.current_block ∧
     rec.start_block < rec.end_block) ∧
    chainFromB 0 (runProcesses cfg envs s).store.rollup_records = true := by
  constructor
  · rcases process_rollup_records_cases cfg env s with hc | ⟨rec2, h1, h2, h3, h4⟩
    · rw [hc] at happ
      have hlen := congrArg List.length happ
      simp [List.length_append] at hlen
    · rw [h1] at happ
      have hsame : rec2 = rec := by
        have := List.append_cancel_left happ
        simpa using this
      subst hsame
      exact ⟨h2, h3, by omega⟩
  · exact runProcesses_preserves_chain cfg envs s hchain

/-- Concrete inputs on which `process` performs a rollup. -/
def c1cfg : RollupConfig :=
  { has_config := true, min_rollup_size := 1, min_gc_round_offset := 10, network_id := 1 }

def c1env : RollupEnv :=
  { flush_ok := true
    current_block := 1
    range_mutations := fun _ _ => [0]
    batch_size := fun l => l.length
    upload := fun _ _ _ _ => some ("arid", 2, 1, 1)
    update_rollup_step := fun _ _ => some (3, "ab")
    add_rollup_ok := true
    has_enough_round_left := fun _ _ => false
    gc_range_ok := true
    add_gc_ok := true
    time := 0
    elapsed := 0 }

def c1state : ExecState :=
  { store := { rollup_records := [], gc_records := [] }
    pending_mutations := 0
    pending_data_size := 0
    pending_start_block := 0
    pending_end_block := 0 }

def c1rec : RollupRecord :=
  { end_block := 1
    raw_data_size := 1
    compress_data_size := 1
    processed_time := 0
    arweave_tx := "arid"
    time := 0
    mutation_count := 1
    cost := 2
    start_block := 0
    evm_tx := "0x" ++ "ab"
    evm_cost := 3 }

theorem process_rollup_ranges_contiguous_witness :
    (c1rec.start_block = lastRollupEnd c1state.store.rollup_records ∧
     c1rec.end_block = c1env.current_block ∧
     c1rec.start_block < c1rec.end_block) ∧
    chainFromB 0 (runProcesses c1cfg [c1env] c1state).store.rollup_records = true :=
  process_rollup_ranges_contiguous c1cfg c1env c1state c1rec [c1env] rfl rfl

/-! ## Threshold gate and pending counters (C3, C4) -/

/-- C3: when `process` reaches the threshold gate with a nonzero batch
size strictly below `min_rollup_size`, it returns `Ok` having
performed only the flush — no blob upload, no contract call, no
appended rollup record — and the pending counters afterwards hold the
previous rollup's `start_block` (`0` when none), the current block,
the number of fetched mutations and the batch's in-memory size. -/
theorem process_threshold_gate (cfg : RollupConfig) (env : RollupEnv) (s : ExecState)
    (hcfg : cfg.has_config = true) (hflush : env.flush_ok = true)
    (hgt : lastRollupEnd s.store.rollup_records < env.current_block)
    (hmut : (env.range_mutations (lastRollupEnd s.store.rollup_records)
      env.current_block).length ≠ 0)
    (hpos : 0 < env.batch_size (env.range_mutations (lastRollupEnd s.store.rollup_records)
      env.current_block))
    (hlt : env.batch_size (env.range_mutations (lastRollupEnd s.store.rollup_records)
      env.current_block) < cfg.min_rollup_size) :
    (process cfg env s).res = Except.ok () ∧
    (process cfg env s).trace = [Effect.flush] ∧
    (process cfg env s).state.store = s.store ∧
    (process cfg env s).state.pending_start_block = lastRollupStart s.store.rollup_records ∧
    (process cfg env s).state.pending_end_block = env.current_block ∧
    (process cfg env s).state.pending_mutations =
      (env.range_mutations (lastRollupEnd s.store.rollup_records) env.current_block).length ∧
    (process cfg env s).state.pending_data_size =
      env.batch_size (env.range_mutations (lastRollupEnd s.store.rollup_records)
        env.current_block) := by
  have hnle : ¬ (env.current_block ≤ lastRollupEnd s.store.rollup_records) := by omega
  simp [process, hcfg, hflush, hnle, hmut, hlt]

def c3cfg : RollupConfig :=
  { has_config := true, min_rollup_size := 10, min_gc_round_offset := 100, network_id := 1 }

def c3env : RollupEnv :=
  { flush_ok := true
    current_block := 7
    range_mutations := fun _ _ => [0, 1, 2, 3, 4]
    batch_size := fun _ => 3
    upload := fun _ _ _ _ => some ("arid", 2, 5, 1)
    update_rollup_step := fun _ _ => some (3, "ab")
    add_rollup_ok := true
    has_enough_round_left := fun _ _ => false
    gc_range_ok := true
    add_gc_ok := true
    time := 0
    elapsed := 0 }

def c3state : ExecState :=
  { store := { rollup_records := [], gc_records := [] }
    pending_mutations := 0
    pending_data_size := 0
    pending_start_block := 0
    pending_end_block := 0 }

theorem process_threshold_gate_witness :
    (process c3cfg c3env c3state).res = Except.ok () ∧
    (process c3cfg c3env c3state).trace = [Effect.flush] ∧
    (process c3cfg c3env c3state).state.store = c3state.store ∧
    (process c3cfg c3env c3state).state.pending_start_block =
      lastRollupStart c3state.store.rollup_records ∧
    (process c3cfg c3env c3state).state.pending_end_block = c3env.current_block ∧
    (process c3cfg c3env c3state).state.pending_mutations =
      (c3env.range_mutations (lastRollupEnd c3state.store.rollup_records)
        c3env.current_block).length ∧
    (process c3cfg c3env c3state).state.pending_data_size =
      c3env.batch_size (c3env.range_mutations (lastRollupEnd c3state.store.rollup_records)
        c3env.current_block) :=
  process_threshold_gate c3cfg c3env c3state rfl rfl (by decide) (by decide) (by decide)
    (by decide)

def c4cfg : RollupConfig :=
  { has_config := true, min_rollup_size := 2, min_gc_round_offset := 100, network_id := 1 }

def c4env : RollupEnv :=
  { flush_ok := true
    current_block := 5
    range_mutations := fun _ _ => [0, 1, 2]
    batch_size := fun _ => 12
    upload := fun _ _ _ _ => some ("arid", 2, 3, 4)
    update_rollup_step := fun _ _ => some (3, "ab")
    add_rollup_ok := true
    has_enough_round_left := fun _ _ => false
    gc_range_ok := true
    add_gc_ok := true
    time := 0
    elapsed := 0 }

def c4state : ExecState :=
  { store := { rollup_records := [], gc_records := [] }
    pending_mutations := 0
    pending_data_size := 0
    pending_start_block := 0
    pending_end_block := 0 }

/-- C4 counterexample: a `process` call that performs a rollup
(appending one record) from block 0 to current block 5 leaves
`pending_start_block = pending_end_block = 5`, not `0`: the four
counters are not all reset to zero. -/
theorem process_counters_not_all_zero :
    (process c4cfg c4env c4state).state.store.rollup_records.length = 1 ∧
    (process c4cfg c4env c4state).state.pending_start_block = 5 ∧
    (process c4cfg c4env c4state).state.pending_end_block = 5 ∧
    ¬ ((process c4cfg c4env c4state).state.pending_start_block = 0 ∧
       (process c4cfg c4env c4state).state.pending_end_block = 0 ∧
       (process c4cfg c4env c4state).state.pending_mutations = 0 ∧
       (process c4cfg c4env c4state).state.pending_data_size = 0) := by
  decide

/-- C4 (amended): when the batch size reaches `min_rollup_size`,
`process` resets `pending_mutations` and `pending_data_size` to zero
and sets both `pending_start_block` and `pending_end_block` to the
current block before the upload and on-chain commit proceed (the
counter values hold in the final state whatever the outcome of the
upload, the commit, the record append and the GC that follow, none of
which touch the counters). -/
theorem process_resets_pending_counters (cfg : RollupConfig) (env : RollupEnv) (s : ExecState)
    (hcfg : cfg.has_config = true) (hflush : env.flush_ok = true)
    (hgt : lastRollupEnd s.store.rollup_records < env.current_block)
    (hmut : (env.range_mutations (lastRollupEnd s.store.rollup_records)
      env.current_block).length ≠ 0)
    (hge : cfg.min_rollup_size ≤ env.batch_size (env.range_mutations
      (lastRollupEnd s.store.rollup_records) env.current_block)) :
    (process cfg env s).state.pending_mutations = 0 ∧
    (process cfg env s).state.pending_data_size = 0 ∧
    (process cfg env s).state.pending_start_block = env.current_block ∧
    (process cfg env s).state.pending_end_block = env.current_block := by
  have hnle : ¬ (env.current_block ≤ lastRollupEnd s.store.rollup_records) := by omega
  have hnsize : ¬ (env.batch_size (env.range_mutations (lastRollupEnd s.store.rollup_records)
      env.current_block) < cfg.min_rollup_size) := by omega
  cases hup : env.upload (lastRollupTx s.store.rollup_records)
      (lastRollupEnd s.store.rollup_records) env.current_block cfg.network_id with
  | none => simp [process, hcfg, hflush, hnle, hmut, hnsize, hup]
  | some v1 =>
    obtain ⟨id, reward, num_rows, size⟩ := v1
    cases hupd : env.update_rollup_step id cfg.network_id with
    | none => simp [process, hcfg, hflush, hnle, hmut, hnsize, hup, hupd]
    | some v2 =>
      obtain ⟨evm_cost, tx_hash⟩ := v2
      by_cases hadd : env.add_rollup_ok <;>
        simp [process, hcfg, hflush, hnle, hmut, hnsize, hup, hupd, hadd]

def c4benv : RollupEnv :=
  { c4env with current_block := 9 }

theorem process_resets_pending_counters_witness :
    (process c4cfg c4benv c4state).state.pending_mutations = 0 ∧
    (process c4cfg c4benv c4state).state.pending_data_size = 0 ∧
    (process c4cfg c4benv c4state).state.pending_start_block = c4benv.current_block ∧
    (process c4cfg c4benv c4state).state.pending_end_block = c4benv.current_block :=
  process_resets_pending_counters c4cfg c4benv c4state rfl rfl (by decide) (by decide)
    (by decide)

/-! ## GC gating (C5) -/

theorem append_singleton_ne {α : Type} (l : List α) (a : α) : l ≠ l ++ [a] := by
  intro h
  have := congrArg List.length h
  simp at this

/-- C5: `gc_mutation` appends a GC record only when the mutation log
reports at least `min_gc_round_offset` rollup rounds strictly later
than the last GC target — returning `Ok` with no change otherwise —
and any record it appends copies the `[start_block, end_block)` range
and raw data size of a single rollup record: on first run the one
found at start block `0`, on later runs the one immediately after the
last GC record's `start_block`. -/
theorem gc_mutation_gating (cfg : RollupConfig) (env : RollupEnv) (store : StoreState) :
    (env.has_enough_round_left (lastGcStart store) cfg.min_gc_round_offset = false →
      gc_mutation cfg env store = ⟨store, [], Except.ok ()⟩) ∧
    (∀ g : GcRecord,
      (gc_mutation cfg env store).store.gc_records = store.gc_records ++ [g] →
      env.has_enough_round_left (lastGcStart store) cfg.min_gc_round_offset = true ∧
      ∃ r : RollupRecord,
        (match store.get_last_gc_record with
         | none => store.get_rollup_record 0 = some r
         | some prev => store.get_next_rollup_record prev.start_block = some r) ∧
        g.start_block = r.start_block ∧ g.end_block = r.end_block ∧
        g.data_size = r.raw_data_size) := by
  constructor
  · intro h
    cases hgc : store.get_last_gc_record with
    | none =>
      simp only [lastGcStart, hgc] at h
      simp [gc_mutation, hgc, h]
    | some prev =>
      simp only [lastGcStart, hgc] at h
      simp [gc_mutation, hgc, h]
  · intro g happ
    by_cases ho : env.has_enough_round_left (lastGcStart store) cfg.min_gc_round_offset
    case neg =>
      have hfalse : env.has_enough_round_left (lastGcStart store) cfg.min_gc_round_offset
          = false := by
        cases henv : env.has_enough_round_left (lastGcStart store) cfg.min_gc_round_offset
        · rfl
        · exact absurd henv ho
      have hun : gc_mutation cfg env store = ⟨store, [], Except.ok ()⟩ := by
        cases hgc : store.get_last_gc_record with
        | none =>
          simp only [lastGcStart, hgc] at hfalse
          simp [gc_mutation, hgc, hfalse]
        | some prev =>
          simp only [lastGcStart, hgc] at hfalse
          simp [gc_mutation, hgc, hfalse]
      rw [hun] at happ
      exact absurd happ (append_singleton_ne _ _)
    case pos =>
      refine ⟨ho, ?_⟩
      cases hgc : store.get_last_gc_record with
      | none =>
        have ho2 : env.has_enough_round_left 0 cfg.min_gc_round_offset = true := by
          simpa [lastGcStart, hgc] using ho
        cases hr : store.get_rollup_record 0 with
        | none =>
          have hun : (gc_mutation cfg env store).store.gc_records = store.gc_records := by
            simp [gc_mutation, hgc, ho2, hr]
          rw [hun] at happ
          exact absurd happ (append_singleton_ne _ _)
        | some r =>
          by_cases hgr : env.gc_range_ok
          case neg =>
            have hun : (gc_mutation cfg env store).store.gc_records = store.gc_records := by
              simp [gc_mutation, hgc, ho2, hr, hgr]
            rw [hun] at happ
            exact absurd happ (append_singleton_ne _ _)
          by_cases hag : env.add_gc_ok
          case neg =>
            have hun : (gc_mutation cfg env store).store.gc_records = store.gc_records := by
              simp [gc_mutation, hgc, ho2, hr, hgr, hag]
            rw [hun] at happ
            exact absurd happ (append_singleton_ne _ _)
          have hrec : (gc_mutation cfg env store).store.gc_records =
              store.gc_records ++
                [{ start_block := r.start_block, end_block := r.end_block,
                   data_size := r.raw_data_size, time := env.time,
                   processed_time := env.elapsed }] := by
            simp [gc_mutation, hgc, ho2, hr, hgr, hag, StoreState.add_gc_record]
          rw [hrec] at happ
          have hge := List.append_cancel_left happ
          simp only [List.cons.injEq, and_true] at hge
          cases hge
          exact ⟨r, rfl, rfl, rfl, rfl⟩
      | some prev =>
        have ho2 : env.has_enough_round_left prev.start_block cfg.min_gc_round_offset
            = true := by
          simpa [lastGcStart, hgc] using ho
        cases hr : store.get_next_rollup_record prev.start_block with
        | none =>
          have hun : (gc_mutation cfg env store).store.gc_records = store.gc_records := by
            simp [gc_mutation, hgc, ho2, hr]
          rw [hun] at happ
          exact absurd happ (append_singleton_ne _ _)
        | some r =>
          by_cases hgr : env.gc_range_ok
          case neg =>
            have hun : (gc_mutation cfg env store).store.gc_records = store.gc_records := by
              simp [gc_mutation, hgc, ho2, hr, hgr]
            rw [hun] at happ
            exact absurd happ (append_singleton_ne _ _)
          by_cases hag : env.add_gc_ok
          case neg =>
            have hun : (gc_mutation cfg env store).store.gc_records = store.gc_records := by
              simp [gc_mutation, hgc, ho2, hr, hgr, hag]
            rw [hun] at happ
            exact absurd happ (append_singleton_ne _ _)
          have hrec : (gc_mutation cfg env store).store.gc_records =
              store.gc_records ++
                [{ start_block := r.start_block, end_block := r.end_block,
                   data_size := r.raw_data_size, time := env.time,
                   processed_time := env.elapsed }] := by
            simp [gc_mutation, hgc, ho2, hr, hgr, hag, StoreState.add_gc_record]
          rw [hrec] at happ
          have hge := List.append_cancel_left happ
          simp only [List.cons.injEq, and_true] at hge
          cases hge
          exact ⟨r, hr, rfl, rfl, rfl⟩

def c5cfg : RollupConfig :=
  { has_config := true, min_rollup_size := 1, min_gc_round_offset := 2, network_id := 1 }

def c5rollup : RollupRecord :=
  { end_block := 4
    raw_data_size := 100
    compress_data_size := 10
    processed_time := 1
    arweave_tx := "arid"
    time := 5
    mutation_count := 9
    cost := 2
    start_block := 0
    evm_tx := "0xab"
    evm_cost := 3 }

def c5store : StoreState :=
  { rollup_records := [c5rollup], gc_records := [] }

def c5env : RollupEnv :=
  { flush_ok := true
    current_block := 4
    range_mutations := fun _ _ => []
    batch_size := fun _ => 0
    upload := fun _ _ _ _ => none
    update_rollup_step := fun _ _ => none
    add_rollup_ok := true
    has_enough_round_left := fun _ _ => true
    gc_range_ok := true
    add_gc_ok := true
    time := 11
    elapsed := 22 }

def c5envFalse : RollupEnv :=
  { c5env with has_enough_round_left := fun _ _ => false }

def c5grec : GcRecord :=
  { start_block := 0, end_block := 4, data_size := 100, time := 11, processed_time := 22 }

theorem gc_mutation_gating_witness :
    gc_mutation c5cfg c5envFalse c5store = ⟨c5store, [], Except.ok ()⟩ ∧
    (c5env.has_enough_round_left (lastGcStart c5store) c5cfg.min_gc_round_offset = true ∧
     ∃ r : RollupRecord,
       (match c5store.get_last_gc_record with
        | none => c5store.get_rollup_record 0 = some r
        | some prev => c5store.get_next_rollup_record prev.start_block = some r) ∧
       c5grec.start_block = r.start_block ∧ c5grec.end_block = r.end_block ∧
       c5grec.data_size = r.raw_data_size) :=
  ⟨(gc_mutation_gating c5cfg c5envFalse c5store).1 rfl,
   (gc_mutation_gating c5cfg c5env c5store).2 c5grec rfl⟩

/-! ## Recovery cursor stride (C2) -/

def c2applyEnv : ApplyEnv :=
  { unwrap_and_light_verify := fun _ _ => Except.ok (⟨1⟩, 9, 0)
    action_from_i32 := fun _ => some 1
    convert_doc_ids_map := fun _ => Except.ok []
    apply_mutation := fun _ _ _ _ _ _ _ _ => Except.ok () }

def c2wrapper : MutationWrapper :=
  { header := some { block_id := 0, order_id := 0, doc_ids_map := "", network := 1 }
    body := some { payload := [1], signature := "sig" } }

def c2env : FetchEnv :=
  { recover_block_state := none
    get_blocks := fun s _ => Except.ok (if s < 300 then [c2wrapper] else [])
    applyEnv := c2applyEnv }

/-- C2 (the code evaluated at the failing input): starting from
watermark `0` against a primary that returns a nonempty batch for
every window starting below block 300, `recover_from_fetched_blocks`
requests `[0, 1000)`, `[100, 1100)`, `[200, 1200)`, `[300, 1300)` —
each request covers 1,000 blocks but the cursor advances by only 100,
so the second request starts at 100, not 1,000 — and the loop exits
exactly on the first empty mutation list. -/
theorem recover_cursor_stride_is_100 :
    (recover_from_fetched_blocks c2env 5).requests =
      [(0, 1000), (100, 1100), (200, 1200), (300, 1300)] ∧
    (recover_from_fetched_blocks c2env 5).exit = LoopExit.finished := by
  constructor <;> rfl

/-! ## Event-task registry (C6) -/

/-- C6: registering an event task under a contract address already
present in the processor mapping fails with the already-registered
error (the `"contract_addr .. exist"` `WriteStoreError`, which the
spec's taxonomy calls `AlreadyRegistered`) and leaves the mapping
unchanged — no silent replace — and every registration preserves
distinctness of the contract addresses in the registry. -/
theorem start_an_event_task_no_silent_replace (p : Nat) (mapping : ProcessorMapping)
    (contract_address : String) (np : Option Nat) (m2 : ProcessorMapping) (c2 : String)
    (h : (mapping.any fun kv => kv.fst = contract_address) = true) :
    start_an_event_task (some p) mapping contract_address =
      ⟨mapping,
       Except.error
         (DB3Err.writeStoreError ("contract_addr " ++ contract_address ++ " exist"))⟩ ∧
    ((m2.map Prod.fst).Nodup → ((start_an_event_task np m2 c2).mapping.map Prod.fst).Nodup) := by
  constructor
  · simp [start_an_event_task, h]
  · intro hnd
    cases np with
    | none => simpa [start_an_event_task] using hnd
    | some q =>
      by_cases hc : (m2.any fun kv => kv.fst = c2) = true
      · simpa [start_an_event_task, hc] using hnd
      · have hmem : c2 ∉ m2.map Prod.fst := by
          intro hmem
          apply hc
          rw [List.any_eq_true]
          obtain ⟨kv, hkv, hfst⟩ := List.mem_map.mp hmem
          exact ⟨kv, hkv, by simp [hfst]⟩
        simp only [start_an_event_task, hc, if_false, Bool.false_eq_true]
        simp [List.nodup_append, hnd, hmem]

def c6mapping : ProcessorMapping := [("0xc0ffee", 1)]

theorem start_an_event_task_no_silent_replace_witness :
    start_an_event_task (some 2) c6mapping "0xc0ffee" =
      ⟨c6mapping,
       Except.error
         (DB3Err.writeStoreError ("contract_addr " ++ "0xc0ffee" ++ " exist"))⟩ ∧
    ((c6mapping.map Prod.fst).Nodup →
      ((start_an_event_task (some 2) c6mapping "0xc0ffee").mapping.map Prod.fst).Nodup) :=
  start_an_event_task_no_silent_replace 2 c6mapping "0xc0ffee" (some 2) c6mapping "0xc0ffee"
    (by decide)

/-! ## Admin setup (C7) -/

/-- C7: a `Setup` request whose signature recovers to an address
different from the configured admin address is answered with
`PermissionDenied` and leaves `network_id` unchanged; one signed by
the admin stores the payload's `network` field into `network_id` and
succeeds. -/
theorem setup_admin_gate (env : SetupEnv) (st : IndexerState) (payload : List Nat)
    (signature : String) (addr admin : Nat) (data : List (String × Nat))
    (hv : env.verify_setup payload signature = Except.ok (addr, data))
    (hp : env.parse_address st.admin_addr = Except.ok admin) :
    (addr ≠ admin →
      setup env st payload signature =
        ⟨Except.error (RpcStatus.permissionDenied "You are not the admin"), st⟩) ∧
    (addr = admin →
      setup env st payload signature =
        ⟨Except.ok ⟨0, "ok"⟩, { st with network_id := get_u64_field data "network" 0 }⟩) := by
  constructor
  · intro hne
    have hne2 : admin ≠ addr := fun hx => hne hx.symm
    simp [setup, hv, hp, hne2]
  · intro heq
    subst heq
    simp [setup, hv, hp]

def c7st : IndexerState :=
  { network_id := 1, admin_addr := "0xa", node_url := "url", key_root_path := "keys" }

def c7env : SetupEnv :=
  { verify_setup := fun _ _ => Except.ok (43, [("network", 7)])
    parse_address := fun _ => Except.ok 42 }

def c7aenv : SetupEnv :=
  { verify_setup := fun _ _ => Except.ok (42, [("network", 7)])
    parse_address := fun _ => Except.ok 42 }

theorem setup_admin_gate_witness :
    setup c7env c7st [1] "sig" =
      ⟨Except.error (RpcStatus.permissionDenied "You are not the admin"), c7st⟩ ∧
    setup c7aenv c7st [1] "sig" =
      ⟨Except.ok ⟨0, "ok"⟩,
       { c7st with network_id := get_u64_field [("network", 7)] "network" 0 }⟩ :=
  ⟨(setup_admin_gate c7env c7st [1] "sig" 43 42 [("network", 7)] rfl rfl).1 (by decide),
   (setup_admin_gate c7aenv c7st [1] "sig" 42 42 [("network", 7)] rfl rfl).2 rfl⟩

/-! ## System status after setup (C8) -/

def c8env : SetupEnv :=
  { verify_setup := fun _ _ => Except.ok (42, [("network", 7)])
    parse_address := fun _ => Except.ok 42 }

def c8senv : StatusEnv :=
  { build_wallet := fun _ => Except.ok "ff", build_version := "v1" }

def c8st : IndexerState :=
  { network_id := 1, admin_addr := "0xa", node_url := "url", key_root_path := "keys" }

/-- C8 counterexample: after an admin-signed `Setup` with
`{network: 7}` succeeds and `network_id` becomes `7`, the subsequent
`GetSystemStatus` response carries `config = None` — the response's
config field does not reflect network `7` (it carries no config at
all). -/
theorem get_system_status_ignores_network :
    (setup c8env c8st [1] "sig").response = Except.ok ⟨0, "ok"⟩ ∧
    (setup c8env c8st [1] "sig").state.network_id = 7 ∧
    (get_system_status c8senv (setup c8env c8st [1] "sig").state).toOption.map
      SystemStatus.config = some none := by
  exact ⟨rfl, rfl, rfl⟩

/-- C8 (amended): after a successful `Setup` signed by the admin whose
payload's `network` field is `7`, the node's `network_id` equals `7`,
but the `GetSystemStatus` response's `config` field is `None`: the
response does not carry the updated network value. -/
theorem setup_network_not_in_status (env : SetupEnv) (senv : StatusEnv)
    (st : IndexerState) (payload : List Nat) (signature : String) (admin : Nat)
    (data : List (String × Nat)) (w : String)
    (hv : env.verify_setup payload signature = Except.ok (admin, data))
    (hp : env.parse_address st.admin_addr = Except.ok admin)
    (hf : get_u64_field data "network" 0 = 7)
    (hw : senv.build_wallet st.key_root_path = Except.ok w) :
    (setup env st payload signature).state.network_id = 7 ∧
    ∃ status : SystemStatus,
      get_system_status senv (setup env st payload signature).state = Except.ok status ∧
      status.config = none := by
  have h1 : setup env st payload signature =
      ⟨Except.ok ⟨0, "ok"⟩, { st with network_id := get_u64_field data "network" 0 }⟩ := by
    simp [setup, hv, hp]
  rw [h1]
  refine ⟨hf, ?_⟩
  refine ⟨{ evm_account := "0x" ++ w, evm_balance := "0", ar_account := "", ar_balance := "",
            node_url := st.node_url, config := none, has_inited := false,
            admin_addr := st.admin_addr, version := some senv.build_version }, ?_, rfl⟩
  simp [get_system_status, hw]

theorem setup_network_not_in_status_witness :
    (setup c8env c8st [1] "sig").state.network_id = 7 ∧
    ∃ status : SystemStatus,
      get_system_status c8senv (setup c8env c8st [1] "sig").state = Except.ok status ∧
      status.config = none :=
  setup_network_not_in_status c8env c8senv c8st [1] "sig" 42 [("network", 7)] "ff" rfl rfl
    rfl rfl

/-! ## Recovery error isolation (C9) -/

/-- C9: during `recover_state`, an error registering one database's
listener is swallowed and recovery proceeds to attempt the
registration of every remaining database: whenever the document-store
recovery, the descriptor enumeration, address decoding and collection
listing succeed, `recover_state` returns `Ok` and the attempt trace
lists every enumerated database in order, whatever the individual
registration outcomes. -/
theorem recover_state_swallows_register_errors (env : RecoverEnv)
    (mapping : ProcessorMapping) (dbs : List EventDb)
    (h1 : env.recover_db_state_ok = true)
    (h2 : env.get_all_event_db = Except.ok dbs)
    (h3 : ∀ db ∈ dbs, ∃ a, env.try_from db.address = Except.ok a ∧
      ∃ cs, env.get_collection_of_database a = Except.ok cs) :
    ∃ m t, recover_state env mapping = Except.ok (m, t) ∧
      t.map Prod.fst = dbs.map (fun d => d.contract_address) := by
  have hloop : ∀ (ds : List EventDb) (mp : ProcessorMapping),
      (∀ db ∈ ds, ∃ a, env.try_from db.address = Except.ok a ∧
        ∃ cs, env.get_collection_of_database a = Except.ok cs) →
      ∃ m t, recover_state_loop env mp ds = Except.ok (m, t) ∧
        t.map Prod.fst = ds.map (fun d => d.contract_address) := by
    intro ds
    induction ds with
    | nil => intro mp _; exact ⟨mp, [], rfl, rfl⟩
    | cons d ds ih =>
      intro mp hall
      obtain ⟨a, ha, cs, hcs⟩ := hall d (by simp)
      obtain ⟨m, t, hml, hmap⟩ :=
        ih (start_an_event_task (env.new_processor d) mp d.contract_address).mapping
          (fun db hdb => hall db (by simp [hdb]))
      cases hres : (start_an_event_task (env.new_processor d) mp d.contract_address).res with
      | error e =>
        refine ⟨m, (d.contract_address, false) :: t, ?_, by simp [hmap]⟩
        simp [recover_state_loop, ha, hcs, hres, hml]
      | ok u =>
        refine ⟨m, (d.contract_address, true) :: t, ?_, by simp [hmap]⟩
        simp [recover_state_loop, ha, hcs, hres, hml]
  obtain ⟨m, t, hml, hmap⟩ := hloop dbs mapping h3
  exact ⟨m, t, by simp [recover_state, h1, h2, hml], hmap⟩

def c9dbA : EventDb :=
  { address := [1], evm_node_url := "urlA", events_json_abi := "[]",
    contract_address := "0xaaaa" }

def c9dbB : EventDb :=
  { address := [2], evm_node_url := "urlB", events_json_abi := "[]",
    contract_address := "0xbbbb" }

/-- A recovery environment in which creating the first database's
event processor fails and the second succeeds. -/
def c9env : RecoverEnv :=
  { recover_db_state_ok := true
    get_all_event_db := Except.ok [c9dbA, c9dbB]
    try_from := fun bs => Except.ok bs.length
    get_collection_of_database := fun _ => Except.ok ["col"]
    new_processor := fun d => if d.contract_address = "0xaaaa" then none else some 5 }

theorem recover_state_swallows_register_errors_witness :
    ∃ m t, recover_state c9env [] = Except.ok (m, t) ∧
      t.map Prod.fst = [c9dbA, c9dbB].map (fun d => d.contract_address) :=
  recover_state_swallows_register_errors c9env [] [c9dbA, c9dbB] rfl rfl
    (by
      intro db hdb
      refine ⟨db.address.length, rfl, ["col"], rfl⟩)

/-! ## Partiality of mutation parsing (C10) -/

/-- C10: `parse_and_apply_mutations` is partial on its input: a
mutation wrapper with an absent header or body makes it panic (via
`unwrap`) instead of returning an error, and the
`"invalid mutation header"` `WriteStoreError` branch of the inner
header match is never executed, on any input. -/
theorem parse_and_apply_mutations_partial (env : ApplyEnv) (m : MutationWrapper)
    (rest muts : List MutationWrapper)
    (habsent : m.header = none ∨ m.body = none) :
    (∃ site, (parse_and_apply_mutations env (m :: rest)).outcome =
      ApplyOutcome.panicked site) ∧
    (parse_and_apply_mutations env muts).invalid_header_hit = false := by
  constructor
  · rcases habsent with hh | hb
    · exact ⟨"mutation.header.as_ref().unwrap()", by simp [parse_and_apply_mutations, hh]⟩
    · cases hh2 : m.header with
      | none =>
        exact ⟨"mutation.header.as_ref().unwrap()", by simp [parse_and_apply_mutations, hh2]⟩
      | some hdr =>
        exact ⟨"mutation.body.as_ref().unwrap()",
          by simp [parse_and_apply_mutations, hh2, hb]⟩
  · induction muts with
    | nil => rfl
    | cons m2 rest2 ih =>
      cases hh : m2.header with
      | none => simp [parse_and_apply_mutations, hh]
      | some hdr =>
        cases hb : m2.body with
        | none => simp [parse_and_apply_mutations, hh, hb]
        | some body =>
          cases hv : env.unwrap_and_light_verify body.payload body.signature with
          | error e => simp [parse_and_apply_mutations, hh, hb, hv]
          | ok v =>
            obtain ⟨dm, address, nonce⟩ := v
            cases hact : env.action_from_i32 dm.action with
            | none => simp [parse_and_apply_mutations, hh, hb, hv, hact]
            | some action =>
              cases hconv : env.convert_doc_ids_map hdr.doc_ids_map with
              | error e => simp [parse_and_apply_mutations, hh, hb, hv, hact, hconv]
              | ok doc_ids =>
                cases happly : env.apply_mutation action dm address hdr.network nonce
                    hdr.block_id hdr.order_id doc_ids with
                | error e =>
                  simp [parse_and_apply_mutations, hh, hb, hv, hact, hconv, happly]
                | ok u =>
                  simpa [parse_and_apply_mutations, hh, hb, hv, hact, hconv, happly]
                    using ih

def c10wrapper : MutationWrapper := { header := none, body := some ⟨[1], "sig"⟩ }

theorem parse_and_apply_mutations_partial_witness :
    (∃ site, (parse_and_apply_mutations c2applyEnv [c10wrapper]).outcome =
      ApplyOutcome.panicked site) ∧
    (parse_and_apply_mutations c2applyEnv [c10wrapper]).invalid_header_hit = false :=
  parse_and_apply_mutations_partial c2applyEnv c10wrapper [] [c10wrapper] (Or.inl rfl)

end DB3
